import Mathlib

/-!
Shallow embedding of `mqtt-receipt-print.py`: the printer status protocol
(`_find_dle_eot_response`, `fetch_status`), the status-change publisher
(`check_printer_status`), the inbound print-message handler
(`on_print_message`, `send_print_status`) and the run loop
(`run`: queue draining, reconnect sub-loop, connection-loss handling).

Device I/O is modelled by a `Device` record giving the outcome of each of
the five I/O steps `fetch_status` can perform (drain read, phase-1 command
write, phase-1 response read, phase-2 command write, phase-2 response read);
a step outcome is `Except Unit _`, the `error` case standing for a raised
`IOError`.  `fetch_status_run` additionally records the trace of device
open/close cycles and settle sleeps so that resource-usage claims can be
stated; `fetch_status` is its second projection.
-/

/-- `status_message(text, ok)` from the source: builds `{"status": text, "ok": ok}`. -/
structure StatusMsg where
  status : String
  ok : Bool
  deriving DecidableEq, Repr

def status_message (text : String) (ok : Bool) : StatusMsg :=
  { status := text, ok := ok }

def status_offline : StatusMsg := status_message "Offline" false

def status_cover_open : StatusMsg := status_message "Cover is open" false

def status_paper_being_fed : StatusMsg :=
  status_message "Paper is being fed by the paper feed button" false

def status_oop : StatusMsg := status_message "Out of paper" false

def status_error : StatusMsg := status_message "Error light is on" false

def status_no_response : StatusMsg :=
  status_message "No response from printer" false

def status_not_connected : StatusMsg :=
  status_message "Printer not connected" false

def status_ready : StatusMsg := status_message "Ready" true

/-- The dynamically built fallback of `fetch_status` (source line 129):
`status_message(f"Unrecognised printer status: {n1=} {n2=}", False)`. -/
def status_unrecognised (n1 n2 : Nat) : StatusMsg :=
  status_message
    ("Unrecognised printer status: n1=" ++ toString n1 ++ " n2=" ++ toString n2)
    false

/-- `_find_dle_eot_response(r)`: scan the read bytes for the first byte `b`
with `(b & 0x93) == 0x12`; `None` when no byte passes the mask test. -/
def find_dle_eot_response : List Nat → Option Nat
  | [] => none
  | b :: rest => if b &&& 0x93 = 0x12 then some b else find_dle_eot_response rest

/-- Outcomes of the five device I/O steps `fetch_status` can perform, in
program order.  `Except.error ()` stands for a raised `IOError` at that step. -/
structure Device where
  drainResult : Except Unit (List Nat)
  write1Result : Except Unit Unit
  read1Result : Except Unit (List Nat)
  write2Result : Except Unit Unit
  read2Result : Except Unit (List Nat)

/-- One completed device interaction of `fetch_status`: each of `drain`,
`writeCmd` and `readResp` is one open/use/close cycle on the printer device;
`sleepMs` is a `time.sleep` settle delay. -/
inductive DevOp where
  | drain
  | writeCmd (cmd : List Nat)
  | sleepMs (ms : Nat)
  | readResp
  deriving DecidableEq, Repr

/-- `fetch_status` (source lines 67-130) instrumented with the trace of
completed device open/close cycles and sleeps.  Mirrors the source control
flow exactly: drain; write DLE EOT 1; sleep 100 ms; read and scan for `n1`;
`None` → NoResponse; `n1 & 0x28` clear → Ready; else write DLE EOT 2; sleep
100 ms; read and scan for `n2`; `None` → Error; then the `0x04`, `0x08`,
`0x20`, `0x40` checks in order; else the Unrecognised fallback.  Any step
raising `IOError` short-circuits to NotConnected. -/
def fetch_status_run (d : Device) : List DevOp × StatusMsg :=
  match d.drainResult with
  | .error _ => ([], status_not_connected)
  | .ok _ =>
    match d.write1Result with
    | .error _ => ([.drain], status_not_connected)
    | .ok _ =>
      match d.read1Result with
      | .error _ =>
        ([.drain, .writeCmd [0x10, 0x04, 0x01], .sleepMs 100], status_not_connected)
      | .ok r1 =>
        let t1 : List DevOp :=
          [.drain, .writeCmd [0x10, 0x04, 0x01], .sleepMs 100, .readResp]
        match find_dle_eot_response r1 with
        | none => (t1, status_no_response)
        | some n1 =>
          if n1 &&& 0x28 = 0 then (t1, status_ready)
          else
            match d.write2Result with
            | .error _ => (t1, status_not_connected)
            | .ok _ =>
              match d.read2Result with
              | .error _ =>
                (t1 ++ [.writeCmd [0x10, 0x04, 0x02], .sleepMs 100],
                 status_not_connected)
              | .ok r2 =>
                let t2 := t1 ++ [.writeCmd [0x10, 0x04, 0x02], .sleepMs 100, .readResp]
                match find_dle_eot_response r2 with
                | none => (t2, status_error)
                | some n2 =>
                  if n2 &&& 0x04 ≠ 0 then (t2, status_cover_open)
                  else if n2 &&& 0x08 ≠ 0 then (t2, status_paper_being_fed)
                  else if n2 &&& 0x20 ≠ 0 then (t2, status_oop)
                  else if n2 &&& 0x40 ≠ 0 then (t2, status_error)
                  else (t2, status_unrecognised n1 n2)

/-- `fetch_status(self) -> Dict[str, Any]`: the status value alone. -/
def fetch_status (d : Device) : StatusMsg :=
  (fetch_status_run d).2

/-- Number of device open/close cycles in a trace (each `drain`, `writeCmd`
and `readResp` op opens the device and closes it again). -/
def openCount (t : List DevOp) : Nat :=
  (t.filter fun op => match op with
    | .drain => true
    | .writeCmd _ => true
    | .readResp => true
    | .sleepMs _ => false).length

/-- Number of drain operations in a trace. -/
def drainCount (t : List DevOp) : Nat :=
  (t.filter fun op => match op with
    | .drain => true
    | _ => false).length

/-- Number of command writes in a trace. -/
def writeCmdCount (t : List DevOp) : Nat :=
  (t.filter fun op => match op with
    | .writeCmd _ => true
    | _ => false).length

/-- Total forced settle delay of a trace, in milliseconds. -/
def sleepTotal (t : List DevOp) : Nat :=
  (t.map fun op => match op with
    | .sleepMs ms => ms
    | _ => 0).sum

/-- A message published to the MQTT bus: either a retained status publish
(from `check_printer_status` — source lines 136-138, `retain=True`) or a
`printed`-topic job result (from `send_print_status` — source lines 181-186,
payload `{"jobid", "status", "finished", "success"}`, not retained). -/
inductive PubMsg where
  | statusPub (s : StatusMsg) (retain : Bool)
  | printedPub (jobid : String) (status : String) (finished : Bool) (success : Bool)
  deriving DecidableEq, Repr

/-- The mutable state the run loop owns: `connected`, `current_status`,
`print_queue` (list of `(jobid, data)` pairs), the status-check deadline,
plus the observable outputs (bus publishes, raw bytes written to the
device for printing). -/
structure RunState where
  connected : Bool
  current_status : StatusMsg
  print_queue : List (String × List Nat)
  status_check_deadline : Nat
  published : List PubMsg
  deviceWrites : List (List Nat)
  deriving DecidableEq

/-- `send_print_status(jobid, message, finished=True, success=False)`:
publish a job result on the `printed` topic. -/
def send_print_status (jobid message : String) (finished success : Bool)
    (s : RunState) : RunState :=
  { s with published := s.published ++ [.printedPub jobid message finished success] }

/-- `check_printer_status` (source lines 132-138): fetch, and if the new
status differs from `current_status`, store it and publish it retained. -/
def check_printer_status (d : Device) (s : RunState) : RunState :=
  let new_status := fetch_status d
  if new_status ≠ s.current_status then
    { s with current_status := new_status,
             published := s.published ++ [.statusPub new_status true] }
  else s

/-- The queue-draining step of one `run` iteration (source lines 192-207):
if the queue is non-empty, pop the head job, fetch the status; on `ok`
write the payload to the device and report "Printed"; if the device write
raises report `Print failed: e=...`; on a not-`ok` status report the
status text without touching the device.  `w` is the outcome of the device
append-write (`Except.error e` standing for a raised exception `e`). -/
def process_queue (d : Device) (w : Except String Unit) (s : RunState) : RunState :=
  match s.print_queue with
  | [] => s
  | (jobid, data) :: rest =>
    let s1 := { s with print_queue := rest }
    let status := fetch_status d
    if status.ok then
      match w with
      | .ok _ =>
        send_print_status jobid "Printed" true true
          { s1 with deviceWrites := s1.deviceWrites ++ [data] }
      | .error e =>
        send_print_status jobid ("Print failed: e=" ++ e) true false s1
    else
      send_print_status jobid status.status true false s1

/-- The JSON object of an inbound `print` message as `on_print_message`
inspects it: presence of `jobid` (already stringified by `str(...)`) and
presence of the raw `data` string. -/
structure JsonReq where
  jobid : Option String
  data : Option String

/-- Outcome of `json.loads` on the inbound payload: a decode error or a
parsed request object. -/
inductive InPayload where
  | notJson
  | jsonReq (req : JsonReq)

/-- `on_print_message` (source lines 154-176).  `b64decode` models
`base64.b64decode` (an external library call): `Except.error e` stands for
a raised decode exception `e`.  Non-JSON payload → ignored; missing
`jobid` → ignored; missing `data` → publish "Aborted: missing data";
decode failure → publish `Error decoding data: e=...`; otherwise append
`(jobid, data)` to the print queue. -/
def on_print_message (b64decode : String → Except String (List Nat))
    (p : InPayload) (s : RunState) : RunState :=
  match p with
  | .notJson => s
  | .jsonReq req =>
    match req.jobid with
    | none => s
    | some jobid =>
      match req.data with
      | none => send_print_status jobid "Aborted: missing data" true false s
      | some dataStr =>
        match b64decode dataStr with
        | .error e =>
          send_print_status jobid ("Error decoding data: e=" ++ e) true false s
        | .ok data => { s with print_queue := s.print_queue ++ [(jobid, data)] }

/-- Observable events of one `run` iteration outside the bus publishes:
the watchdog notification, reconnect attempts and the fixed 1-second
retry sleeps. -/
inductive RunEvent where
  | watchdog
  | reconnectAttempt (ok : Bool)
  | sleepSec (n : Nat)
  deriving DecidableEq, Repr

/-- The `while not self.connected` sub-loop of `run` (source lines
209-214): attempt `reconnect()`; on success set `connected`; on
`ConnectionRefusedError` sleep 1 second and retry.  `outs` is the finite
prefix of attempt outcomes the environment supplies (`true` = success,
`false` = refused); the loop consumes them until the first success. -/
def reconnect_loop : Bool → List Bool → List RunEvent × Bool
  | true, _ => ([], true)
  | false, [] => ([], false)
  | false, o :: rest =>
    if o then ([.reconnectAttempt true], true)
    else
      let p := reconnect_loop false rest
      (.reconnectAttempt false :: .sleepSec 1 :: p.1, p.2)

/-- `mqtt.MQTT_ERR_CONN_LOST` (paho constant). -/
def MQTT_ERR_CONN_LOST : Int := 7

/-- The environment of one `run` iteration: device behaviour for the two
possible `fetch_status` calls, the outcome of the job's device write, the
reconnect-attempt outcomes, the return code of `mqttc.loop(timeout)` and
the current clock reading. -/
structure Env where
  jobDev : Device
  printWrite : Except String Unit
  statusDev : Device
  reconnectOutcomes : List Bool
  loopRc : Int
  now : Nat
  status_check_interval : Nat

/-- One iteration of `run`'s `while True` body (source lines 190-224):
notify the watchdog; drain at most one queued job; run the reconnect
sub-loop; if connected, run the deadline-gated status check and process
bus events, setting `connected := false` when `loop` reports
`MQTT_ERR_CONN_LOST`.  Returns the new state and the iteration's event
trace (watchdog first, then the reconnect sub-loop's events). -/
def run_iteration (env : Env) (s : RunState) : RunState × List RunEvent :=
  let s1 := process_queue env.jobDev env.printWrite s
  let p := reconnect_loop s1.connected env.reconnectOutcomes
  let s2 := { s1 with connected := p.2 }
  let evs := RunEvent.watchdog :: p.1
  if s2.connected then
    let s3 :=
      if s2.status_check_deadline ≤ env.now then
        { check_printer_status env.statusDev s2 with
            status_check_deadline := env.now + env.status_check_interval }
      else s2
    let s4 :=
      if env.loopRc = MQTT_ERR_CONN_LOST then { s3 with connected := false } else s3
    (s4, evs)
  else (s2, evs)

/-- Iterated queue draining: one `process_queue` step per supplied
`(device, write-outcome)` pair, used to state FIFO consumption. -/
def process_n : List (Device × Except String Unit) → RunState → RunState
  | [], s => s
  | dw :: rest, s => process_n rest (process_queue dw.1 dw.2 s)

/-- The job ids of the `printed`-topic results in a publish list, in order. -/
def printedJobids : List PubMsg → List String
  | [] => []
  | .printedPub j _ _ _ :: rest => j :: printedJobids rest
  | .statusPub _ _ :: rest => printedJobids rest

/-- `watchdogBetween evs seen` is `false` exactly when some two successive
`reconnectAttempt` events in `evs` have no `watchdog` event between them
(`seen` records whether an attempt has occurred since the last watchdog). -/
def watchdogBetween : List RunEvent → Bool → Bool
  | [], _ => true
  | .watchdog :: rest, _ => watchdogBetween rest false
  | .reconnectAttempt _ :: _, true => false
  | .reconnectAttempt _ :: rest, false => watchdogBetween rest true
  | .sleepSec _ :: rest, b => watchdogBetween rest b

/-- A device on which every I/O step succeeds, the drain reads nothing and
the two response reads return `r1` and `r2`. -/
def devAllOk (r1 r2 : List Nat) : Device :=
  ⟨.ok [], .ok (), .ok r1, .ok (), .ok r2⟩

/-- The six device-interaction traces `fetch_status` can produce, in order
of how far the control flow got. -/
lemma fetch_status_run_trace_cases (d : Device) :
    (fetch_status_run d).1 = [] ∨
    (fetch_status_run d).1 = [.drain] ∨
    (fetch_status_run d).1 = [.drain, .writeCmd [0x10, 0x04, 0x01], .sleepMs 100] ∨
    (fetch_status_run d).1 =
      [.drain, .writeCmd [0x10, 0x04, 0x01], .sleepMs 100, .readResp] ∨
    (fetch_status_run d).1 =
      [.drain, .writeCmd [0x10, 0x04, 0x01], .sleepMs 100, .readResp,
       .writeCmd [0x10, 0x04, 0x02], .sleepMs 100] ∨
    (fetch_status_run d).1 =
      [.drain, .writeCmd [0x10, 0x04, 0x01], .sleepMs 100, .readResp,
       .writeCmd [0x10, 0x04, 0x02], .sleepMs 100, .readResp] := by
  obtain ⟨dr, w1, r1, w2, r2⟩ := d
  rcases dr with u | rd
  · exact Or.inl rfl
  rcases w1 with u | w1v
  · exact Or.inr (Or.inl rfl)
  rcases r1 with u | rb1
  · exact Or.inr (Or.inr (Or.inl rfl))
  rcases h1 : find_dle_eot_response rb1 with _ | n1
  · refine Or.inr (Or.inr (Or.inr (Or.inl ?_)))
    simp [fetch_status_run, h1]
  by_cases h28 : n1 &&& 0x28 = 0
  · refine Or.inr (Or.inr (Or.inr (Or.inl ?_)))
    simp [fetch_status_run, h1, h28]
  rcases w2 with u | w2v
  · refine Or.inr (Or.inr (Or.inr (Or.inl ?_)))
    simp [fetch_status_run, h1, h28]
  rcases r2 with u | rb2
  · refine Or.inr (Or.inr (Or.inr (Or.inr (Or.inl ?_))))
    simp [fetch_status_run, h1, h28]
  refine Or.inr (Or.inr (Or.inr (Or.inr (Or.inr ?_))))
  rcases h2 : find_dle_eot_response rb2 with _ | n2
  · simp [fetch_status_run, h1, h28, h2]
  · simp only [fetch_status_run, h1, h2]
    rw [if_neg h28]
    split_ifs <;> simp

/-- Claim C4, counterexample: the spec's pointwise examples fail on the code.
A phase-1 response byte of `0x00` fails the mask test `(b & 0x93) == 0x12`,
so `fetch_status` returns NoResponse, not Ready; and a phase-1 byte of
`0x28` also fails the mask test, so the pair `(0x28, 0x04)` yields
NoResponse, not CoverOpen. -/
theorem status_decoding_examples_counterexample :
    fetch_status (devAllOk [0x00] []) = status_no_response ∧
    status_no_response ≠ status_ready ∧
    fetch_status (devAllOk [0x28] [0x04]) = status_no_response ∧
    status_no_response ≠ status_cover_open := by decide

/-- Claim C4 (amended): the status decoding matches the documented table on
mask-passing response bytes: a phase-1 byte `0x12` (marker bits present,
`0x28` clear) yields Ready without the phase-2 command ever being written; a
phase-1 byte `0x3a` (marker bits plus `0x28`) together with a phase-2 byte
`0x16` (marker bits plus `0x04`) yields CoverOpen; phase-1 `0x3a` with a
phase-2 byte `0x12` (marker bits, none of `{0x04, 0x08, 0x20, 0x40}`) yields
the Unrecognised status carrying both bytes. -/
theorem status_decoding_examples :
    (fetch_status (devAllOk [0x12] []) = status_ready ∧
     DevOp.writeCmd [0x10, 0x04, 0x02] ∉ (fetch_status_run (devAllOk [0x12] [])).1) ∧
    fetch_status (devAllOk [0x3a] [0x16]) = status_cover_open ∧
    fetch_status (devAllOk [0x3a] [0x12]) = status_unrecognised 0x3a 0x12 := by
  decide

/-- Claim C5, counterexample: on a device where both phases run to the
final fallback, `fetch_status` performs five device open/close cycles (not
at most four) and drains stale bytes exactly once — before the phase-1
command only, not in each of the two phases; and when phase 1 already
settles the status the total forced delay is 100 ms, not 200 ms. -/
theorem fetch_status_resources_counterexample :
    ¬ openCount (fetch_status_run (devAllOk [0x3a] [0x12])).1 ≤ 4 ∧
    drainCount (fetch_status_run (devAllOk [0x3a] [0x12])).1 = 1 ∧
    sleepTotal (fetch_status_run (devAllOk [0x12] [])).1 = 100 := by decide

/-- Claim C5 (amended): `fetch_status` drains stale buffered bytes at most
once, before the phase-1 command only; it performs at most five device
open/close cycles, writes at most two 3-byte commands, and sleeps 100 ms
after each command write (hence at most 200 ms total, reaching 200 ms
exactly when the phase-2 command is also written). -/
theorem fetch_status_resources_spec (d : Device) :
    drainCount (fetch_status_run d).1 ≤ 1 ∧
    openCount (fetch_status_run d).1 ≤ 5 ∧
    writeCmdCount (fetch_status_run d).1 ≤ 2 ∧
    sleepTotal (fetch_status_run d).1 = 100 * writeCmdCount (fetch_status_run d).1 := by
  rcases fetch_status_run_trace_cases d with h | h | h | h | h | h <;> rw [h] <;> decide

/-- The text of an Unrecognised status always starts with `U`. -/
lemma status_unrecognised_status_head (n1 n2 : Nat) :
    (status_unrecognised n1 n2).status.data.head? = some 'U' := by
  show ((("Unrecognised printer status: n1=" ++ toString n1) ++ " n2=") ++
    toString n2).data.head? = some 'U'
  rw [String.data_append, String.data_append, String.data_append]
  have h : "Unrecognised printer status: n1=".data =
      'U' :: "nrecognised printer status: n1=".data := by decide
  rw [h]
  rfl

/-- An Unrecognised status never coincides with a status whose text does
not start with `U`. -/
lemma status_unrecognised_ne (n1 n2 : Nat) (t : String) (b : Bool)
    (h : t.data.head? ≠ some 'U') :
    status_unrecognised n1 n2 ≠ status_message t b := by
  intro he
  apply h
  have h2 := congrArg StatusMsg.status he
  have h3 : (status_message t b).status = t := rfl
  rw [h3] at h2
  rw [← h2]
  exact status_unrecognised_status_head n1 n2

/-- Claim C1: when all device I/O succeeds, `fetch_status` decides as
follows.  No mask-passing byte in the phase-1 read → NoResponse.  Accepted
phase-1 byte with the `0x28` bits clear → Ready, and the phase-2 command is
never written.  Otherwise phase 2 runs: no mask-passing byte in the phase-2
read → Error; an accepted phase-2 byte `n2` is decided in the exact priority
order `0x04` (CoverOpen), `0x08` (PaperBeingFed), `0x20` (OutOfPaper),
`0x40` (Error), the first matching bit winning, and with none of the four
bits set the result is the Unrecognised status carrying both raw bytes. -/
theorem fetch_status_decision (d : Device) (r1 : List Nat)
    (hdr : ∃ b, d.drainResult = Except.ok b)
    (hw1 : d.write1Result = Except.ok ())
    (hr1 : d.read1Result = Except.ok r1)
    (hw2 : d.write2Result = Except.ok ()) :
    (find_dle_eot_response r1 = none → fetch_status d = status_no_response) ∧
    (∀ n1, find_dle_eot_response r1 = some n1 →
      (n1 &&& 0x28 = 0 →
        fetch_status d = status_ready ∧
        DevOp.writeCmd [0x10, 0x04, 0x02] ∉ (fetch_status_run d).1) ∧
      (n1 &&& 0x28 ≠ 0 → ∀ r2, d.read2Result = Except.ok r2 →
        DevOp.writeCmd [0x10, 0x04, 0x02] ∈ (fetch_status_run d).1 ∧
        (find_dle_eot_response r2 = none → fetch_status d = status_error) ∧
        (∀ n2, find_dle_eot_response r2 = some n2 →
          (fetch_status d = status_cover_open ↔ n2 &&& 0x04 ≠ 0) ∧
          (fetch_status d = status_paper_being_fed ↔
            n2 &&& 0x04 = 0 ∧ n2 &&& 0x08 ≠ 0) ∧
          (fetch_status d = status_oop ↔
            n2 &&& 0x04 = 0 ∧ n2 &&& 0x08 = 0 ∧ n2 &&& 0x20 ≠ 0) ∧
          (fetch_status d = status_error ↔
            n2 &&& 0x04 = 0 ∧ n2 &&& 0x08 = 0 ∧ n2 &&& 0x20 = 0 ∧
              n2 &&& 0x40 ≠ 0) ∧
          (n2 &&& 0x04 = 0 ∧ n2 &&& 0x08 = 0 ∧ n2 &&& 0x20 = 0 ∧
              n2 &&& 0x40 = 0 →
            fetch_status d = status_unrecognised n1 n2)))) := by
  obtain ⟨dr, w1, r1f, w2, r2f⟩ := d
  obtain ⟨b, hb⟩ := hdr
  simp only at hb hw1 hr1 hw2
  subst hb hw1 hr1 hw2
  constructor
  · intro hf
    simp [fetch_status, fetch_status_run, hf]
  intro n1 hf
  constructor
  · intro h28
    simp [fetch_status, fetch_status_run, hf, h28]
  intro h28 r2 hr2
  simp only at hr2
  subst hr2
  refine ⟨?_, ?_, ?_⟩
  · simp only [fetch_status_run, hf]
    rw [if_neg h28]
    rcases hx : find_dle_eot_response r2 with _ | m
    · simp [hx]
    · simp only [hx]
      split_ifs <;> simp
  · intro hf2
    simp [fetch_status, fetch_status_run, hf, h28, hf2]
  intro n2 hf2
  have hu1 : status_unrecognised n1 n2 ≠ status_cover_open :=
    status_unrecognised_ne n1 n2 "Cover is open" false (by decide)
  have hu2 : status_unrecognised n1 n2 ≠ status_paper_being_fed :=
    status_unrecognised_ne n1 n2 "Paper is being fed by the paper feed button"
      false (by decide)
  have hu3 : status_unrecognised n1 n2 ≠ status_oop :=
    status_unrecognised_ne n1 n2 "Out of paper" false (by decide)
  have hu4 : status_unrecognised n1 n2 ≠ status_error :=
    status_unrecognised_ne n1 n2 "Error light is on" false (by decide)
  have hc1 : status_cover_open ≠ status_paper_being_fed := by decide
  have hc2 : status_cover_open ≠ status_oop := by decide
  have hc3 : status_cover_open ≠ status_error := by decide
  have hc4 : status_paper_being_fed ≠ status_cover_open := by decide
  have hc5 : status_paper_being_fed ≠ status_oop := by decide
  have hc6 : status_paper_being_fed ≠ status_error := by decide
  have hc7 : status_oop ≠ status_cover_open := by decide
  have hc8 : status_oop ≠ status_paper_being_fed := by decide
  have hc9 : status_oop ≠ status_error := by decide
  have hcA : status_error ≠ status_cover_open := by decide
  have hcB : status_error ≠ status_paper_being_fed := by decide
  have hcC : status_error ≠ status_oop := by decide
  simp only [fetch_status, fetch_status_run, hf, hf2]
  rw [if_neg h28]
  split_ifs <;> simp_all

/-- Witness for C1: on a device answering `0x3a` in phase 1 and `0x16` in
phase 2, the decision theorem yields CoverOpen. -/
theorem fetch_status_decision_witness :
    fetch_status (devAllOk [0x3a] [0x16]) = status_cover_open := by
  have h := fetch_status_decision (devAllOk [0x3a] [0x16]) [0x3a]
    ⟨[], rfl⟩ rfl rfl rfl
  have h2 := (h.2 0x3a rfl).2 (by decide) [0x16] rfl
  exact (h2.2.2 0x16 rfl).1.2 (by decide)

/-- Claim C7: a device I/O failure (raised `IOError`) at any reached step
of either phase makes `fetch_status` return NotConnected: any failure among
the phase-1 steps (drain, command write, response read) does so
unconditionally, and a failure of a phase-2 step does so whenever phase 2
is reached (accepted phase-1 byte with `0x28` bits set); the error is
swallowed, never propagated. -/
theorem fetch_status_ioerror (d : Device) :
    ((d.drainResult = Except.error () ∨ d.write1Result = Except.error () ∨
      d.read1Result = Except.error ()) → fetch_status d = status_not_connected) ∧
    (∀ r1 n1, d.read1Result = Except.ok r1 → find_dle_eot_response r1 = some n1 →
      n1 &&& 0x28 ≠ 0 →
      (d.write2Result = Except.error () ∨ d.read2Result = Except.error ()) →
      fetch_status d = status_not_connected) := by
  obtain ⟨dr, w1, r1f, w2, r2f⟩ := d
  constructor
  · intro h
    rcases dr with u | rd
    · rfl
    rcases w1 with u | w1v
    · rfl
    rcases r1f with u | rb1
    · rfl
    simp_all
  · intro r1 n1 hr1 hfind h28 h2
    simp only at hr1
    subst hr1
    rcases dr with u | rd
    · rfl
    rcases w1 with u | w1v
    · rfl
    rcases h2 with h2 | h2
    · simp only at h2
      subst h2
      simp [fetch_status, fetch_status_run, hfind, h28]
    · simp only at h2
      subst h2
      rcases w2 with u | w2v <;>
        simp [fetch_status, fetch_status_run, hfind, h28]

/-- Witness for C7: a drain-step failure alone already forces NotConnected. -/
theorem fetch_status_ioerror_witness :
    fetch_status ⟨.error (), .ok (), .ok [], .ok (), .ok []⟩ =
      status_not_connected :=
  (fetch_status_ioerror ⟨.error (), .ok (), .ok [], .ok (), .ok []⟩).1
    (Or.inl rfl)

/-- The eight canonical status instances of the class body. -/
def canonical_statuses : List StatusMsg :=
  [status_offline, status_cover_open, status_paper_being_fed, status_oop,
   status_error, status_no_response, status_not_connected, status_ready]

/-- Every value `fetch_status` returns is one of the eight canonical
statuses or an Unrecognised status built from the two accepted bytes. -/
lemma fetch_status_range (d : Device) :
    fetch_status d ∈ canonical_statuses ∨
    ∃ n1 n2, fetch_status d = status_unrecognised n1 n2 := by
  obtain ⟨dr, w1, r1f, w2, r2f⟩ := d
  rcases dr with u | rd
  · exact Or.inl (by show status_not_connected ∈ canonical_statuses; decide)
  rcases w1 with u | w1v
  · exact Or.inl (by show status_not_connected ∈ canonical_statuses; decide)
  rcases r1f with u | rb1
  · exact Or.inl (by show status_not_connected ∈ canonical_statuses; decide)
  rcases h1 : find_dle_eot_response rb1 with _ | n1
  · have e : fetch_status ⟨.ok rd, .ok w1v, .ok rb1, w2, r2f⟩ =
        status_no_response := by simp [fetch_status, fetch_status_run, h1]
    exact Or.inl (by rw [e]; decide)
  by_cases h28 : n1 &&& 0x28 = 0
  · have e : fetch_status ⟨.ok rd, .ok w1v, .ok rb1, w2, r2f⟩ =
        status_ready := by simp [fetch_status, fetch_status_run, h1, h28]
    exact Or.inl (by rw [e]; decide)
  rcases w2 with u | w2v
  · have e : fetch_status ⟨.ok rd, .ok w1v, .ok rb1, .error u, r2f⟩ =
        status_not_connected := by simp [fetch_status, fetch_status_run, h1, h28]
    exact Or.inl (by rw [e]; decide)
  rcases r2f with u | rb2
  · have e : fetch_status ⟨.ok rd, .ok w1v, .ok rb1, .ok w2v, .error u⟩ =
        status_not_connected := by simp [fetch_status, fetch_status_run, h1, h28]
    exact Or.inl (by rw [e]; decide)
  rcases h2 : find_dle_eot_response rb2 with _ | n2
  · have e : fetch_status ⟨.ok rd, .ok w1v, .ok rb1, .ok w2v, .ok rb2⟩ =
        status_error := by simp [fetch_status, fetch_status_run, h1, h28, h2]
    exact Or.inl (by rw [e]; decide)
  simp only [fetch_status, fetch_status_run, h1, h2]
  rw [if_neg h28]
  split_ifs
  · exact Or.inl (by show status_cover_open ∈ canonical_statuses; decide)
  · exact Or.inl (by show status_paper_being_fed ∈ canonical_statuses; decide)
  · exact Or.inl (by show status_oop ∈ canonical_statuses; decide)
  · exact Or.inl (by show status_error ∈ canonical_statuses; decide)
  · exact Or.inr ⟨n1, n2, rfl⟩

/-- Claim C9: for every status the program can construct — the eight
canonical instances and any Unrecognised instance — the `ok` field is true
exactly when the status is Ready, and every possible return value of
`fetch_status` satisfies this invariant. -/
theorem status_ok_iff_ready :
    (∀ s ∈ canonical_statuses, (s.ok = true ↔ s = status_ready)) ∧
    (∀ n1 n2, ((status_unrecognised n1 n2).ok = true ↔
      status_unrecognised n1 n2 = status_ready)) ∧
    (∀ d, ((fetch_status d).ok = true ↔ fetch_status d = status_ready)) := by
  have h1 : ∀ s ∈ canonical_statuses, (s.ok = true ↔ s = status_ready) := by
    decide
  have h2 : ∀ n1 n2, ((status_unrecognised n1 n2).ok = true ↔
      status_unrecognised n1 n2 = status_ready) := by
    intro n1 n2
    exact ⟨fun h => Bool.noConfusion h,
      fun h => Bool.noConfusion (congrArg StatusMsg.ok h)⟩
  refine ⟨h1, h2, ?_⟩
  intro d
  rcases fetch_status_range d with h | ⟨n1, n2, h⟩
  · exact h1 _ h
  · rw [h]; exact h2 n1 n2

/-- Witness for C9: the invariant applied to the canonical Offline status. -/
theorem status_ok_iff_ready_witness :
    (status_offline.ok = true ↔ status_offline = status_ready) :=
  status_ok_iff_ready.1 status_offline (by decide)

/-- Claim C10: the final Unrecognised fallback of `fetch_status` executes
only when phase 1 produced a mask-passing byte `n1` with the `0x28` bits
set and phase 2 produced a mask-passing byte `n2` with none of `0x04`,
`0x08`, `0x20`, `0x40` set; both bytes are therefore assigned at that
point, and the branch is never reached from the Ready (no-phase-2) path —
the phase-2 command has always been written when it runs. -/
theorem unrecognised_fallback_guarded (d : Device)
    (h : fetch_status d ∉ canonical_statuses) :
    ∃ r1 n1 r2 n2,
      d.read1Result = Except.ok r1 ∧ find_dle_eot_response r1 = some n1 ∧
      n1 &&& 0x28 ≠ 0 ∧
      d.read2Result = Except.ok r2 ∧ find_dle_eot_response r2 = some n2 ∧
      n2 &&& 0x04 = 0 ∧ n2 &&& 0x08 = 0 ∧ n2 &&& 0x20 = 0 ∧ n2 &&& 0x40 = 0 ∧
      fetch_status d = status_unrecognised n1 n2 ∧
      DevOp.writeCmd [0x10, 0x04, 0x02] ∈ (fetch_status_run d).1 := by
  obtain ⟨dr, w1, r1f, w2, r2f⟩ := d
  rcases dr with u | rd
  · exact absurd (by show status_not_connected ∈ canonical_statuses; decide) h
  rcases w1 with u | w1v
  · exact absurd (by show status_not_connected ∈ canonical_statuses; decide) h
  rcases r1f with u | rb1
  · exact absurd (by show status_not_connected ∈ canonical_statuses; decide) h
  rcases h1 : find_dle_eot_response rb1 with _ | n1
  · refine absurd ?_ h
    have e : fetch_status ⟨.ok rd, .ok w1v, .ok rb1, w2, r2f⟩ =
        status_no_response := by simp [fetch_status, fetch_status_run, h1]
    rw [e]; decide
  by_cases h28 : n1 &&& 0x28 = 0
  · refine absurd ?_ h
    have e : fetch_status ⟨.ok rd, .ok w1v, .ok rb1, w2, r2f⟩ =
        status_ready := by simp [fetch_status, fetch_status_run, h1, h28]
    rw [e]; decide
  rcases w2 with u | w2v
  · refine absurd ?_ h
    have e : fetch_status ⟨.ok rd, .ok w1v, .ok rb1, .error u, r2f⟩ =
        status_not_connected := by simp [fetch_status, fetch_status_run, h1, h28]
    rw [e]; decide
  rcases r2f with u | rb2
  · refine absurd ?_ h
    have e : fetch_status ⟨.ok rd, .ok w1v, .ok rb1, .ok w2v, .error u⟩ =
        status_not_connected := by simp [fetch_status, fetch_status_run, h1, h28]
    rw [e]; decide
  rcases h2 : find_dle_eot_response rb2 with _ | n2
  · refine absurd ?_ h
    have e : fetch_status ⟨.ok rd, .ok w1v, .ok rb1, .ok w2v, .ok rb2⟩ =
        status_error := by simp [fetch_status, fetch_status_run, h1, h28, h2]
    rw [e]; decide
  by_cases c4 : n2 &&& 0x04 = 0
  swap
  · refine absurd ?_ h
    have e : fetch_status ⟨.ok rd, .ok w1v, .ok rb1, .ok w2v, .ok rb2⟩ =
        status_cover_open := by
      simp only [fetch_status, fetch_status_run, h1, h2]
      rw [if_neg h28]
      simp [c4]
    rw [e]; decide
  by_cases c8 : n2 &&& 0x08 = 0
  swap
  · refine absurd ?_ h
    have e : fetch_status ⟨.ok rd, .ok w1v, .ok rb1, .ok w2v, .ok rb2⟩ =
        status_paper_being_fed := by
      simp only [fetch_status, fetch_status_run, h1, h2]
      rw [if_neg h28]
      simp [c4, c8]
    rw [e]; decide
  by_cases c20 : n2 &&& 0x20 = 0
  swap
  · refine absurd ?_ h
    have e : fetch_status ⟨.ok rd, .ok w1v, .ok rb1, .ok w2v, .ok rb2⟩ =
        status_oop := by
      simp only [fetch_status, fetch_status_run, h1, h2]
      rw [if_neg h28]
      simp [c4, c8, c20]
    rw [e]; decide
  by_cases c40 : n2 &&& 0x40 = 0
  swap
  · refine absurd ?_ h
    have e : fetch_status ⟨.ok rd, .ok w1v, .ok rb1, .ok w2v, .ok rb2⟩ =
        status_error := by
      simp only [fetch_status, fetch_status_run, h1, h2]
      rw [if_neg h28]
      simp [c4, c8, c20, c40]
    rw [e]; decide
  refine ⟨rb1, n1, rb2, n2, rfl, h1, h28, rfl, h2, c4, c8, c20, c40, ?_, ?_⟩
  · simp only [fetch_status, fetch_status_run, h1, h2]
    rw [if_neg h28]
    simp [c4, c8, c20, c40]
  · simp only [fetch_status_run, h1, h2]
    rw [if_neg h28]
    simp [c4, c8, c20, c40]

/-- Witness for C10: the fallback conditions hold on a device answering
`0x3a` in phase 1 and `0x12` in phase 2. -/
theorem unrecognised_fallback_guarded_witness :
    ∃ r1 n1 r2 n2,
      (devAllOk [0x3a] [0x12]).read1Result = Except.ok r1 ∧
      find_dle_eot_response r1 = some n1 ∧ n1 &&& 0x28 ≠ 0 ∧
      (devAllOk [0x3a] [0x12]).read2Result = Except.ok r2 ∧
      find_dle_eot_response r2 = some n2 ∧
      n2 &&& 0x04 = 0 ∧ n2 &&& 0x08 = 0 ∧ n2 &&& 0x20 = 0 ∧ n2 &&& 0x40 = 0 ∧
      fetch_status (devAllOk [0x3a] [0x12]) = status_unrecognised n1 n2 ∧
      DevOp.writeCmd [0x10, 0x04, 0x02] ∈
        (fetch_status_run (devAllOk [0x3a] [0x12])).1 :=
  unrecognised_fallback_guarded (devAllOk [0x3a] [0x12]) (by decide)

/-- The run-loop state as `__init__` and `run` set it up: not connected,
current status Offline, empty queue, status-check deadline 0, nothing yet
published or written. -/
def init_state : RunState :=
  { connected := false, current_status := status_offline, print_queue := [],
    status_check_deadline := 0, published := [], deviceWrites := [] }

/-- Claim C8: `check_printer_status` publishes to the status topic if and
only if the freshly fetched status differs structurally from the stored
`current_status`, updating the stored status exactly when it publishes;
repeating it with an unchanged fetched status is idempotent (zero further
publishes). -/
theorem check_printer_status_spec (d : Device) (s : RunState) :
    (fetch_status d ≠ s.current_status →
      check_printer_status d s =
        { s with current_status := fetch_status d,
                 published := s.published ++ [.statusPub (fetch_status d) true] }) ∧
    (fetch_status d = s.current_status → check_printer_status d s = s) ∧
    check_printer_status d (check_printer_status d s) = check_printer_status d s := by
  refine ⟨?_, ?_, ?_⟩
  · intro h
    simp [check_printer_status, h]
  · intro h
    simp [check_printer_status, h]
  · by_cases h : fetch_status d = s.current_status
    · simp [check_printer_status, h]
    · simp [check_printer_status, h]

/-- Witness for C8: fetching Ready over stored Offline publishes once and
stores Ready. -/
theorem check_printer_status_spec_witness :
    check_printer_status (devAllOk [0x12] []) init_state =
      { init_state with current_status := status_ready,
                        published := [.statusPub status_ready true] } :=
  (check_printer_status_spec (devAllOk [0x12] []) init_state).1 (by decide)

/-- In every branch, `process_queue` on a non-empty queue leaves exactly
the tail of the queue. -/
lemma process_queue_queue (d : Device) (w : Except String Unit) (s : RunState)
    (jobid : String) (data : List Nat) (rest : List (String × List Nat))
    (h : s.print_queue = (jobid, data) :: rest) :
    (process_queue d w s).print_queue = rest := by
  by_cases hk : (fetch_status d).ok = true
  · cases w <;> simp [process_queue, h, hk, send_print_status]
  · simp [process_queue, h, hk, send_print_status]

/-- In every branch, `process_queue` on a non-empty queue publishes exactly
one `printed` result, carrying the head job's id. -/
lemma process_queue_publishes (d : Device) (w : Except String Unit) (s : RunState)
    (jobid : String) (data : List Nat) (rest : List (String × List Nat))
    (h : s.print_queue = (jobid, data) :: rest) :
    ∃ msg succ, (process_queue d w s).published =
      s.published ++ [.printedPub jobid msg true succ] := by
  by_cases hk : (fetch_status d).ok = true
  · cases w with
    | error e =>
      exact ⟨"Print failed: e=" ++ e, false,
        by simp [process_queue, h, hk, send_print_status]⟩
    | ok wv =>
      exact ⟨"Printed", true, by simp [process_queue, h, hk, send_print_status]⟩
  · exact ⟨(fetch_status d).status, false,
      by simp [process_queue, h, hk, send_print_status]⟩

/-- `printedJobids` distributes over list append. -/
lemma printedJobids_append (l1 l2 : List PubMsg) :
    printedJobids (l1 ++ l2) = printedJobids l1 ++ printedJobids l2 := by
  induction l1 with
  | nil => rfl
  | cons m rest ih => cases m <;> simp [printedJobids, ih]

/-- Draining one `process_queue` step per queued job reports the jobs, on
the `printed` topic, in exactly the queue's FIFO order. -/
lemma process_n_fifo (dws : List (Device × Except String Unit)) (s : RunState)
    (h : dws.length = s.print_queue.length) :
    printedJobids (process_n dws s).published =
      printedJobids s.published ++ s.print_queue.map Prod.fst := by
  induction dws generalizing s with
  | nil =>
    have hq : s.print_queue = [] := by
      rcases hx : s.print_queue with _ | _
      · rfl
      · rw [hx] at h; simp at h
    simp [process_n, hq]
  | cons dw rest ih =>
    rcases hq : s.print_queue with _ | ⟨⟨jobid, data⟩, qrest⟩
    · rw [hq] at h; simp at h
    obtain ⟨msg, succ, hpub⟩ :=
      process_queue_publishes dw.1 dw.2 s jobid data qrest hq
    have hq2 := process_queue_queue dw.1 dw.2 s jobid data qrest hq
    have hlen : rest.length = (process_queue dw.1 dw.2 s).print_queue.length := by
      rw [hq2]
      rw [hq] at h
      simpa using h
    have hrec := ih (process_queue dw.1 dw.2 s) hlen
    rw [show process_n (dw :: rest) s = process_n rest (process_queue dw.1 dw.2 s)
      from rfl]
    rw [hrec, hpub, printedJobids_append, hq2]
    simp [printedJobids, hq]

/-- Claim C2: when the print queue is non-empty, one `run` iteration
removes exactly the head job (FIFO for any job sequence, per the last
conjunct), then calls `fetch_status`; on an `ok` status the payload is
written to th e device and a success result is published; if the device
write raises, a failure result carrying the write error is published; on a
not-`ok` status a failure result carrying the status text is published and
the device is not written.  In each case the job is consumed exactly once
and never requeued. -/
theorem process_queue_spec (d : Device) (w : Except String Unit) (s : RunState)
    (jobid : String) (data : List Nat) (rest : List (String × List Nat))
    (h : s.print_queue = (jobid, data) :: rest) :
    (process_queue d w s).print_queue = rest ∧
    ((fetch_status d).ok = true → w = Except.ok () →
      process_queue d w s =
        { s with print_queue := rest,
                 deviceWrites := s.deviceWrites ++ [data],
                 published := s.published ++
                   [.printedPub jobid "Printed" true true] }) ∧
    (∀ e, (fetch_status d).ok = true → w = Except.error e →
      process_queue d w s =
        { s with print_queue := rest,
                 published := s.published ++
                   [.printedPub jobid ("Print failed: e=" ++ e) true false] }) ∧
    ((fetch_status d).ok = false →
      process_queue d w s =
        { s with print_queue := rest,
                 published := s.published ++
                   [.printedPub jobid (fetch_status d).status true false] }) ∧
    (∀ (dws : List (Device × Except String Unit)) (s2 : RunState),
      dws.length = s2.print_queue.length →
      printedJobids (process_n dws s2).published =
        printedJobids s2.published ++ s2.print_queue.map Prod.fst) := by
  refine ⟨process_queue_queue d w s jobid data rest h, ?_, ?_, ?_,
    process_n_fifo⟩
  · intro hk hw
    subst hw
    simp [process_queue, h, hk, send_print_status]
  · intro e hk hw
    subst hw
    simp [process_queue, h, hk, send_print_status]
  · intro hk
    simp [process_queue, h, hk, send_print_status]

/-- The state just after the spec's §8 scenario job `{"jobid": 7, "data":
b64("hello")}` has been enqueued. -/
def jobState : RunState :=
  { init_state with print_queue := [("7", [104, 101, 108, 108, 111])] }

/-- Witness for C2: with a Ready device and a succeeding write, the queued
`hello` job is consumed, written to the device, and reported printed. -/
theorem process_queue_spec_witness :
    process_queue (devAllOk [0x12] []) (Except.ok ()) jobState =
      { jobState with print_queue := [],
                      deviceWrites := [[104, 101, 108, 108, 111]],
                      published := [.printedPub "7" "Printed" true true] } :=
  (process_queue_spec (devAllOk [0x12] []) (Except.ok ()) jobState
    "7" [104, 101, 108, 108, 111] [] rfl).2.1 (by decide) rfl

/-- Claim C6: `on_print_message` silently ignores a non-JSON payload and a
JSON object without `jobid` (nothing published, queue unchanged); with
`jobid` but no `data` it publishes exactly one failure result "Aborted:
missing data" and leaves the queue unchanged; with `data` that fails base64
decoding it publishes exactly one failure result describing the decode
error and leaves the queue unchanged; otherwise it appends the pair
(stringified jobid, decoded bytes) to the tail of the queue and publishes
nothing. -/
theorem on_print_message_spec (b64 : String → Except String (List Nat))
    (s : RunState) :
    (on_print_message b64 .notJson s = s) ∧
    (∀ dataStr, on_print_message b64 (.jsonReq ⟨none, dataStr⟩) s = s) ∧
    (∀ jobid, on_print_message b64 (.jsonReq ⟨some jobid, none⟩) s =
      { s with published := s.published ++
          [.printedPub jobid "Aborted: missing data" true false] }) ∧
    (∀ jobid dataStr e, b64 dataStr = Except.error e →
      on_print_message b64 (.jsonReq ⟨some jobid, some dataStr⟩) s =
        { s with published := s.published ++
            [.printedPub jobid ("Error decoding data: e=" ++ e) true false] }) ∧
    (∀ jobid dataStr bytes, b64 dataStr = Except.ok bytes →
      on_print_message b64 (.jsonReq ⟨some jobid, some dataStr⟩) s =
        { s with print_queue := s.print_queue ++ [(jobid, bytes)] }) := by
  refine ⟨rfl, fun dataStr => rfl, fun jobid => rfl, ?_, ?_⟩
  · intro jobid dataStr e he
    simp [on_print_message, he, send_print_status]
  · intro jobid dataStr bytes hb
    simp [on_print_message, hb]

/-- Witness for C6: a well-formed message with decodable data is enqueued. -/
theorem on_print_message_spec_witness :
    on_print_message (fun _ => Except.ok [104]) (.jsonReq ⟨some "7", some "aA=="⟩)
      init_state = { init_state with print_queue := [("7", [104])] } :=
  (on_print_message_spec (fun _ => Except.ok [104]) init_state).2.2.2.2
    "7" "aA==" [104] rfl

/-- `process_queue` never changes the connection flag. -/
lemma process_queue_connected (d : Device) (w : Except String Unit) (s : RunState) :
    (process_queue d w s).connected = s.connected := by
  rcases hq : s.print_queue with _ | ⟨⟨jobid, data⟩, rest⟩
  · simp [process_queue, hq]
  by_cases hk : (fetch_status d).ok = true
  · cases w <;> simp [process_queue, hq, hk, send_print_status]
  · simp [process_queue, hq, hk, send_print_status]

/-- An environment whose bus refuses two reconnect attempts and accepts
the third, with nothing queued and an accepted `loop` call. -/
def envReconnect : Env :=
  { jobDev := devAllOk [] [], printWrite := .ok (), statusDev := devAllOk [] [],
    reconnectOutcomes := [false, false, true], loopRc := 0, now := 0,
    status_check_interval := 5 }

/-- Claim C3, counterexample: starting disconnected with two refused
reconnect attempts before a success, the iteration's event trace emits the
watchdog once, before the retry sub-loop, and between the successive
reconnect attempts there is no watchdog event at all
(`watchdogBetween … = false`), refuting that the liveness signal is
emitted between successive reconnect attempts. -/
theorem reconnect_liveness_counterexample :
    (run_iteration envReconnect init_state).2 =
      [RunEvent.watchdog, .reconnectAttempt false, .sleepSec 1,
       .reconnectAttempt false, .sleepSec 1, .reconnectAttempt true] ∧
    watchdogBetween (run_iteration envReconnect init_state).2 false = false := by
  decide

/-- Claim C3 (amended): when the bounded event-processing call reports the
connection was lost, the iteration ends not-connected; while not connected
the loop attempts reconnect repeatedly, sleeping exactly 1 second after
each refused attempt, with no backoff growth and no attempt cap, until an
attempt succeeds; the watchdog signal is emitted once per outer iteration,
before the reconnect sub-loop, and is not emitted between successive
reconnect attempts within the sub-loop. -/
theorem reconnect_retry_spec :
    (∀ env s, s.connected = true → env.loopRc = MQTT_ERR_CONN_LOST →
      ((run_iteration env s).1).connected = false) ∧
    (∀ k, reconnect_loop false (List.replicate k false ++ [true]) =
      ((List.replicate k [RunEvent.reconnectAttempt false, RunEvent.sleepSec 1]).flatten ++
        [RunEvent.reconnectAttempt true], true)) ∧
    (∀ outs, RunEvent.watchdog ∉ (reconnect_loop false outs).1) ∧
    (∀ env s, (run_iteration env s).2 =
      RunEvent.watchdog ::
        (reconnect_loop (process_queue env.jobDev env.printWrite s).connected
          env.reconnectOutcomes).1) := by
  refine ⟨?_, ?_, ?_, ?_⟩
  · intro env s hc hrc
    simp [run_iteration, process_queue_connected, hc, hrc, reconnect_loop]
  · intro k
    induction k with
    | zero => rfl
    | succ n ih => simp [List.replicate_succ, reconnect_loop, ih]
  · intro outs
    induction outs with
    | nil => simp [reconnect_loop]
    | cons o rest ih =>
      cases o
      · simp [reconnect_loop, ih]
      · simp [reconnect_loop]
  · intro env s
    simp only [run_iteration]
    split <;> rfl

/-- A state that is currently connected, and an environment whose `loop`
call reports the connection lost. -/
def connState : RunState := { init_state with connected := true }

/-- Environment reporting `MQTT_ERR_CONN_LOST` from the event-processing
call. -/
def envConnLost : Env :=
  { jobDev := devAllOk [] [], printWrite := .ok (), statusDev := devAllOk [] [],
    reconnectOutcomes := [], loopRc := MQTT_ERR_CONN_LOST, now := 0,
    status_check_interval := 5 }

/-- Witness for C3 (amended): a connection-lost report flips `connected`
to false in one iteration. -/
theorem reconnect_retry_spec_witness :
    ((run_iteration envConnLost connState).1).connected = false :=
  reconnect_retry_spec.1 envConnLost connState rfl rfl

